import Mathlib

/-!
Verification development for the SMAPI client core of a z/VM Ansible
collection.  The definitions below are a shallow embedding of
plugins/module_utils/psmapi.py (the function call_client) and of the
outcome-classification tails of run_module in
plugins/modules/zvm_setshare.py and plugins/modules/zvm_user.py.
Machine bytes are modelled as natural numbers below 256 in lists;
Python byte-string slicing l[a:b] is modelled by pySlice, which clamps
to the available bytes exactly as Python slicing does.
-/

/-- Value of the Python expression int.from_bytes(l, byteorder=big):
big-endian interpretation of a byte list, 0 on the empty list. -/
def fromBytesBE (l : List Nat) : Nat :=
  l.foldl (fun acc b => acc * 256 + b) 0

/-- Model of the Python slice l[a:b] for 0 <= a <= b on byte strings:
clamps silently when fewer bytes are available, never fails. -/
def pySlice (l : List Nat) (a b : Nat) : List Nat :=
  (l.drop a).take (b - a)

/-- Value of the Python expression n.to_bytes(4, byteorder=big), defined
for n < 2^32 (Python raises OverflowError otherwise; callers guard). -/
def toBytes4 (n : Nat) : List Nat :=
  [n / 16777216 % 256, n / 65536 % 256, n / 256 % 256, n % 256]

/-- Model of the Python expression s.encode(ASCII): succeeds with one
byte per character when every character is below 128, otherwise the
Python call raises UnicodeEncodeError, modelled as none. -/
def asciiEncode (s : String) : Option (List Nat) :=
  if s.toList.all (fun c => c.toNat < 128) then
    some (s.toList.map Char.toNat)
  else
    none

/-- Model of the Python expression bs.decode(ASCII): succeeds when every
byte is below 128, otherwise the Python call raises, modelled as none. -/
def decodeASCII (bs : List Nat) : Option String :=
  if bs.all (fun b => b < 128) then
    some (String.mk (bs.map Char.ofNat))
  else
    none

/-- Embedding of one length-prefixed field of the request frame, from
psmapi.py lines 52-60: len(s).to_bytes(4, big) + s.encode(ASCII).
Python computes len on characters; to_bytes needs len < 2^32. -/
def encodeField (s : String) : Option (List Nat) :=
  if s.length < 2 ^ 32 then
    (asciiEncode s).map (fun bs => toBytes4 s.length ++ bs)
  else
    none

/-- Embedding of the frame assembly in psmapi.py lines 48-65: the four
length-prefixed fields apicommand, authuser, authpass, target in that
order, then the raw command text with no length prefix of its own, and
the total length of that concatenation prepended as the outer 4-byte
big-endian frame length.  none models an uncaught encoding exception. -/
def encodeFrame (apicommand authuser authpass target thecommand : String) :
    Option (List Nat) := do
  let f1 ← encodeField apicommand
  let f2 ← encodeField authuser
  let f3 ← encodeField authpass
  let f4 ← encodeField target
  let c ← asciiEncode thecommand
  let cmdstring := f1 ++ f2 ++ f3 ++ f4 ++ c
  if cmdstring.length < 2 ^ 32 then
    some (toBytes4 cmdstring.length ++ cmdstring)
  else
    none

/-- Embedding of the message-line loop of psmapi.py lines 106-120.  The
first argument is the remaining iteration budget num_messages - i, the
second the remaining bytes, the third the accumulated message_lines
string.  The Bool records whether the loop finished without a decode
exception; on a decode exception Python keeps the lines accumulated so
far (the exception is caught by the surrounding handler). -/
def parseLines : Nat → List Nat → String → String × Bool
  | 0, _, acc => (acc, true)
  | n + 1, msgs, acc =>
    let line_len := fromBytesBE (pySlice msgs 0 4)
    if line_len = 0 then
      (acc, true)
    else
      match decodeASCII (pySlice msgs 4 (line_len + 4)) with
      | none => (acc, false)
      | some line => parseLines n (msgs.drop (line_len + 4)) (acc ++ line ++ "\n")

/-- Value of the local Python variable thecommand in psmapi.py lines
41-43: the single trailing argument when there is exactly one, the
empty string otherwise. -/
def thecommandOf (args : List String) : String :=
  if args.length = 1 then args.headD "" else ""

/-- Result value of one invocation of call_client: an uncaught exception
propagating to the caller, the bare integer returned on the
too-many-arguments path, or the usual three-element list. -/
inductive PyRet where
  | raised : PyRet
  | retInt : Nat → PyRet
  | retTriple : Nat → Nat → String → PyRet
deriving DecidableEq, Repr

/-- Observable outcome of one invocation of call_client: the returned
or raised value plus which externally visible transport actions
happened (TCP/TLS connect completed, sendall was invoked, close was
invoked). -/
structure CallOutcome where
  result : PyRet
  connected : Bool
  sent : Bool
  closed : Bool
deriving DecidableEq, Repr

/-- Environment of one invocation of call_client: whether the connect
and the sendall succeed, and what the two recv calls deliver (none
models a recv that raises a socket error). -/
structure Env where
  connectOk : Bool
  sendOk : Bool
  recv1 : Option (List Nat)
  recv2 : Option (List Nat)
deriving DecidableEq, Repr

/-- Embedding of call_client from psmapi.py lines 22-136, faithful to
the order of effects in the source: the TLS connect happens first and
OUTSIDE the try block (line 29); the bare-integer early return for
more than one trailing argument follows (lines 41-45); the frame is
then assembled, where an encoding failure raises uncaught (lines
48-65); only the sendall, the two recv calls and the response parsing
sit inside try/except/finally (lines 68-130), so only failures there
are converted to the sentinel values initialised at lines 33-37, with
the close in the finally block.  On a successfully received buffer the
return code, reason code and message count are read at fixed offsets
with clamping slices, and the message lines are accumulated. -/
def call_client (host : String) (port : Nat)
    (authuser authpass target apicommand : String)
    (args : List String) (env : Env) : CallOutcome :=
  if env.connectOk = true then
    if 1 < args.length then
      ⟨PyRet.retInt 9999, true, false, false⟩
    else
      match encodeFrame apicommand authuser authpass target (thecommandOf args) with
      | none => ⟨PyRet.raised, true, false, false⟩
      | some _cmdbytes =>
        if env.sendOk = true then
          match env.recv1 with
          | none => ⟨PyRet.retTriple 9999 9999 "", true, true, true⟩
          | some _reqnum =>
            match env.recv2 with
            | none => ⟨PyRet.retTriple 9999 9999 "", true, true, true⟩
            | some response =>
              let return_code := fromBytesBE (pySlice response 8 12)
              let reason_code := fromBytesBE (pySlice response 12 16)
              let num_messages := fromBytesBE (pySlice response 16 20)
              let message_lines := (parseLines num_messages (response.drop 20) "").1
              ⟨PyRet.retTriple return_code reason_code message_lines, true, true, true⟩
        else
          ⟨PyRet.retTriple 9999 9999 "", true, true, true⟩
  else
    ⟨PyRet.raised, false, false, false⟩

/-- Classification outcome of the run_module tails: exit_json with
changed=True, exit_json unchanged after a benign match, fail_json with
the failing-return-code message carrying the return code and the full
output, or the fall-through fail_json with the unknown-return-code
message. -/
inductive Outcome where
  | Changed : Outcome
  | AlreadySatisfied : Outcome
  | Failed : String → Int → String → Outcome
  | UnknownReturnCode : String → Outcome
deriving DecidableEq, Repr

/-- Case-sensitive contiguous-substring test, the value of the Python
expression hay.find(needle) != -1. -/
def isSubstring (needle hay : String) : Bool :=
  (List.range (hay.toList.length + 1)).any
    (fun i => (hay.toList.drop i).take needle.toList.length == needle.toList)

/-- Embedding of the classification tail of run_module in
zvm_setshare.py lines 158-183: return code 0 exits changed; return
code at least 1 scans the whole stdout string for each benign
substring and exits unchanged on any match, otherwise fails with the
failing-return-code message; anything else falls through to the
unknown-return-code failure. -/
def classify_setshare (rc : Int) (stdout : String) (benign : List String) : Outcome :=
  if rc = 0 then
    Outcome.Changed
  else if 1 ≤ rc then
    if 0 < (benign.filter (fun j => isSubstring j stdout)).length then
      Outcome.AlreadySatisfied
    else
      Outcome.Failed ("failing return code from smcli is: " ++ toString rc) rc stdout
  else
    Outcome.UnknownReturnCode ("unknown return code from smcli: " ++ toString rc)

/-- Value of the scan in zvm_user.py lines 205-208: the loop iterates
i over result[return_stdout], which run_command delivers as a single
string, so i ranges over its CHARACTERS; each character is tested with
i.find(j) for each benign substring j, counting the matches. -/
def charScanCount (stdout : String) (benign : List String) : Nat :=
  (stdout.toList.map
    (fun c => (benign.filter (fun j => isSubstring j (String.mk [c]))).length)).sum

/-- Embedding of the classification tail of run_module in zvm_user.py
lines 184-223: identical shape to the zvm_setshare tail except that
the benign scan is the per-character scan charScanCount, because
run_command returns stdout as one string and the source iterates over
it element-wise. -/
def classify_user (rc : Int) (stdout : String) (benign : List String) : Outcome :=
  if rc = 0 then
    Outcome.Changed
  else if 1 ≤ rc then
    if 0 < charScanCount stdout benign then
      Outcome.AlreadySatisfied
    else
      Outcome.Failed ("failing return code from smcli is: " ++ toString rc) rc stdout
  else
    Outcome.UnknownReturnCode ("unknown return code from smcli: " ++ toString rc)

/-- Benign-substring catalog hard-coded in zvm_user.py line 189. -/
def zvm_user_benign : List String :=
  ["Image or profile name already defined", "Image or profile definition not found"]

/-- All-characters-ASCII test used as a hypothesis in framing results. -/
def allAscii (s : String) : Bool :=
  s.toList.all (fun c => c.toNat < 128)

/-- Raw ASCII byte list of a string, one byte per character. -/
def asciiBytes (s : String) : List Nat :=
  s.toList.map Char.toNat

/-- Frame body as the specification describes it, in byte terms: for
each of the four fields a 4-byte big-endian byte-length prefix then
the ASCII bytes, followed by the raw ASCII command bytes with no
prefix.  Stated from the specification wording, to be compared with
encodeFrame, which is transcribed from the source. -/
def specFrameBody (apicommand authuser authpass target thecommand : String) : List Nat :=
  toBytes4 (asciiBytes apicommand).length ++ asciiBytes apicommand ++
  toBytes4 (asciiBytes authuser).length ++ asciiBytes authuser ++
  toBytes4 (asciiBytes authpass).length ++ asciiBytes authpass ++
  toBytes4 (asciiBytes target).length ++ asciiBytes target ++
  asciiBytes thecommand

/-- List of individual message lines the loop of psmapi.py lines
106-120 extracts, with the same stopping rule as parseLines; the Bool
again records absence of a decode exception.  Helper for relating the
accumulated message_lines string to its constituent lines. -/
def parseLinesList : Nat → List Nat → List String × Bool
  | 0, _ => ([], true)
  | n + 1, msgs =>
    let line_len := fromBytesBE (pySlice msgs 0 4)
    if line_len = 0 then
      ([], true)
    else
      match decodeASCII (pySlice msgs 4 (line_len + 4)) with
      | none => ([], false)
      | some line =>
        let rest := parseLinesList n (msgs.drop (line_len + 4))
        (line :: rest.1, rest.2)

/-- Concatenation of strings, each followed by exactly one newline. -/
def concatNL : List String → String
  | [] => ""
  | s :: r => s ++ "\n" ++ concatNL r

/-! Helper lemmas shared by several results. -/

theorem parseLines_nil (n : Nat) (acc : String) : parseLines n [] acc = (acc, true) := by
  cases n with
  | zero => rfl
  | succ m => simp [parseLines, pySlice, fromBytesBE]

theorem asciiBytes_length (s : String) : (asciiBytes s).length = s.length := by
  show (s.toList.map Char.toNat).length = s.length
  rw [List.length_map]
  rfl

theorem asciiEncode_eq (s : String) (h : allAscii s = true) :
    asciiEncode s = some (asciiBytes s) := by
  unfold asciiEncode asciiBytes
  rw [if_pos]
  exact h

theorem parseLines_eq (n : Nat) : ∀ (msgs : List Nat) (acc : String),
    parseLines n msgs acc =
      (acc ++ concatNL (parseLinesList n msgs).1, (parseLinesList n msgs).2) := by
  induction n with
  | zero =>
    intro msgs acc
    rw [show parseLines 0 msgs acc = (acc, true) from rfl,
      show parseLinesList 0 msgs = ([], true) from rfl]
    simp [concatNL, String.append_empty]
  | succ m ih =>
    intro msgs acc
    rw [parseLines, parseLinesList]
    by_cases h : fromBytesBE (pySlice msgs 0 4) = 0
    · simp [h, concatNL, String.append_empty]
    · rw [if_neg h, if_neg h]
      cases hd : decodeASCII (pySlice msgs 4 (fromBytesBE (pySlice msgs 0 4) + 4)) with
      | none => simp [concatNL, String.append_empty]
      | some line =>
        simp [ih, concatNL, String.append_assoc]

theorem concatNL_eq_empty_iff (l : List String) : concatNL l = "" ↔ l = [] := by
  cases l with
  | nil => simp [concatNL]
  | cons s r =>
    simp only [concatNL]
    constructor
    · intro h
      have hlen : (s ++ "\n" ++ concatNL r).length = ("" : String).length := by rw [h]
      rw [String.length_append, String.length_append] at hlen
      have hnl : ("\n" : String).length = 1 := rfl
      have hz : ("" : String).length = 0 := rfl
      omega
    · intro h
      exact absurd h (by simp)

theorem concatNL_ends_newline (l : List String) (h : l ≠ []) :
    ∃ t, concatNL l = t ++ "\n" := by
  induction l with
  | nil => exact absurd rfl h
  | cons s r ih =>
    cases r with
    | nil =>
      refine ⟨s, ?_⟩
      simp [concatNL, String.append_empty]
    | cons s2 r2 =>
      obtain ⟨t, ht⟩ := ih (by simp)
      refine ⟨s ++ "\n" ++ t, ?_⟩
      simp only [concatNL] at ht ⊢
      rw [ht]
      simp [String.append_assoc]

/-- Claim C4: for ASCII-encodable fields the encoded frame is, in order,
the 4-byte big-endian byte-length prefix plus ASCII bytes of api_name,
auth_user, auth_pass and target, followed by the raw ASCII command text
with no length prefix of its own, with the total byte length of that
concatenation prepended as the outer 4-byte big-endian frame length. -/
theorem c4_frame_layout (api au ap tg cmd : String)
    (h1 : allAscii api = true) (h2 : allAscii au = true) (h3 : allAscii ap = true)
    (h4 : allAscii tg = true) (h5 : allAscii cmd = true)
    (l1 : api.length < 2 ^ 32) (l2 : au.length < 2 ^ 32)
    (l3 : ap.length < 2 ^ 32) (l4 : tg.length < 2 ^ 32)
    (ltot : (specFrameBody api au ap tg cmd).length < 2 ^ 32) :
    encodeFrame api au ap tg cmd =
      some (toBytes4 (specFrameBody api au ap tg cmd).length ++
        specFrameBody api au ap tg cmd) := by
  have e1 := asciiEncode_eq api h1
  have e2 := asciiEncode_eq au h2
  have e3 := asciiEncode_eq ap h3
  have e4 := asciiEncode_eq tg h4
  have e5 := asciiEncode_eq cmd h5
  have hbody : toBytes4 api.length ++ asciiBytes api ++
      (toBytes4 au.length ++ asciiBytes au) ++
      (toBytes4 ap.length ++ asciiBytes ap) ++
      (toBytes4 tg.length ++ asciiBytes tg) ++ asciiBytes cmd =
      specFrameBody api au ap tg cmd := by
    simp [specFrameBody, asciiBytes_length, List.append_assoc]
  unfold encodeFrame encodeField
  rw [e1, e2, e3, e4, e5, if_pos l1, if_pos l2, if_pos l3, if_pos l4]
  simp only [Option.bind_eq_bind, Option.map_some', Option.some_bind]
  rw [hbody, if_pos ltot]

/-- Claim C4 witness at a concrete request. -/
theorem c4_frame_layout_witness :
    allAscii "Image_Create_DM" = true ∧
    encodeFrame "Image_Create_DM" "MAINT" "PASSW0RD" "LINUX01" "-T LINUX01" =
      some (toBytes4 (specFrameBody "Image_Create_DM" "MAINT" "PASSW0RD" "LINUX01"
          "-T LINUX01").length ++
        specFrameBody "Image_Create_DM" "MAINT" "PASSW0RD" "LINUX01" "-T LINUX01") :=
  ⟨by decide,
    c4_frame_layout "Image_Create_DM" "MAINT" "PASSW0RD" "LINUX01" "-T LINUX01"
      (by decide) (by decide) (by decide) (by decide) (by decide)
      (by decide) (by decide) (by decide) (by decide) (by decide)⟩

/-- Claim C6: the message-line loop stops at the first of the declared
message count being exhausted or a line whose declared length is zero:
with count 0 the accumulated text stays empty, and a zero declared
line length stops the loop even when the count allows more lines. -/
theorem c6_loop_stop (msgs : List Nat) (n : Nat) :
    parseLines 0 msgs "" = ("", true) ∧
    (fromBytesBE (pySlice msgs 0 4) = 0 → parseLines (n + 1) msgs "" = ("", true)) := by
  constructor
  · rfl
  · intro h
    simp [parseLines, h]

/-- Claim C6 witness: a buffer declaring a zero-length line followed by
more bytes, with a count that allows four more lines. -/
theorem c6_loop_stop_witness :
    fromBytesBE (pySlice [0, 0, 0, 0, 9, 9] 0 4) = 0 ∧
    parseLines 0 [0, 0, 0, 0, 9, 9] "" = ("", true) ∧
    parseLines 4 [0, 0, 0, 0, 9, 9] "" = ("", true) :=
  ⟨by decide, (c6_loop_stop [0, 0, 0, 0, 9, 9] 3).1,
    (c6_loop_stop [0, 0, 0, 0, 9, 9] 3).2 (by decide)⟩

/-- Claim C9: with more than one trailing command-string argument and an
established connection, call_client returns the bare integer 9999
instead of a three-element list, without sending any frame and without
closing the already-established connection. -/
theorem c9_bare_int_return (host : String) (port : Nat)
    (au ap tg api : String) (args : List String) (so : Bool)
    (r1 r2 : Option (List Nat)) (ha : 1 < args.length) :
    call_client host port au ap tg api args ⟨true, so, r1, r2⟩ =
      ⟨PyRet.retInt 9999, true, false, false⟩ := by
  simp [call_client, ha]

/-- Claim C9 witness at a concrete invocation with two trailing
arguments. -/
theorem c9_bare_int_witness :
    1 < (["-T LIN1", "extra"] : List String).length ∧
    call_client "zvmhost" 44444 "MAINT" "PW" "LINUX01" "Image_Create_DM"
        ["-T LIN1", "extra"] ⟨true, true, none, none⟩ =
      ⟨PyRet.retInt 9999, true, false, false⟩ :=
  ⟨by decide,
    c9_bare_int_return "zvmhost" 44444 "MAINT" "PW" "LINUX01" "Image_Create_DM"
      ["-T LIN1", "extra"] true none none (by decide)⟩

/-- Claim C1 counterexample: a refused TCP/TLS connect raises out of
call_client (the connect sits outside the try block in psmapi.py line
29), with nothing sent and nothing closed, instead of returning the
sentinel triple (9999, 9999, empty). -/
theorem c1_connect_refused_propagates :
    call_client "zvmhost" 44444 "MAINT" "PW" "LINUX01" "Image_Create_DM"
        ["-T LIN1"] ⟨false, true, none, none⟩ =
      ⟨PyRet.raised, false, false, false⟩ ∧
    PyRet.raised ≠ PyRet.retTriple 9999 9999 "" := by
  exact ⟨rfl, by decide⟩

/-- Claim C1 as amended: a transport failure occurring after the
connection is established (a failing sendall or a failing recv) is
caught, and call_client returns the sentinel triple (9999, 9999,
empty) after closing the connection; the connect itself is outside the
handler. -/
theorem c1_amended_sentinel_after_established (host : String) (port : Nat)
    (au ap tg api : String) (args : List String) (so : Bool)
    (r1 r2 : Option (List Nat)) (ha : args.length ≤ 1)
    (he : (encodeFrame api au ap tg (thecommandOf args)).isSome = true)
    (hf : so = false ∨ r1 = none ∨ r2 = none) :
    call_client host port au ap tg api args ⟨true, so, r1, r2⟩ =
      ⟨PyRet.retTriple 9999 9999 "", true, true, true⟩ := by
  have hgt : ¬ 1 < args.length := by omega
  obtain ⟨bs, hbs⟩ := Option.isSome_iff_exists.mp he
  rcases hf with hf | hf | hf
  · subst hf
    simp [call_client, hgt, hbs]
  · subst hf
    cases so <;> simp [call_client, hgt, hbs]
  · subst hf
    cases so <;> cases r1 <;> simp [call_client, hgt, hbs]

/-- Claim C1 witness (amended form): a sendall failure on an
established connection yields the sentinel triple with the connection
closed. -/
theorem c1_amended_witness :
    (["Q"] : List String).length ≤ 1 ∧
    call_client "zvmhost" 44444 "U" "P" "T" "API" ["Q"] ⟨true, false, none, none⟩ =
      ⟨PyRet.retTriple 9999 9999 "", true, true, true⟩ :=
  ⟨by decide,
    c1_amended_sentinel_after_established "zvmhost" 44444 "U" "P" "T" "API" ["Q"]
      false none none (by decide) (by decide) (Or.inl rfl)⟩

/-- Claim C5 counterexample: with a non-ASCII api name the encoding
failure raises uncaught, but only AFTER the TCP/TLS connect (network
I/O) has been performed, and the connection stays open. -/
theorem c5_encoding_after_connect :
    allAscii "Ωmega_API" = false ∧
    call_client "zvmhost" 44444 "MAINT" "PW" "LINUX01" "Ωmega_API" ["-T LIN1"]
        ⟨true, true, none, none⟩ =
      ⟨PyRet.raised, true, false, false⟩ := by
  exact ⟨by decide, by decide⟩

/-- Claim C5 as amended: with a non-ASCII-encodable field the failure
is raised before the frame is assembled in full and before any bytes
are sent (sent = false), but after the TCP/TLS connect has been
performed, and it propagates with the connection left open. -/
theorem c5_amended_raise_before_send (host : String) (port : Nat)
    (au ap tg api : String) (args : List String) (so : Bool)
    (r1 r2 : Option (List Nat)) (ha : args.length ≤ 1)
    (he : encodeFrame api au ap tg (thecommandOf args) = none) :
    call_client host port au ap tg api args ⟨true, so, r1, r2⟩ =
      ⟨PyRet.raised, true, false, false⟩ := by
  have hgt : ¬ 1 < args.length := by omega
  simp [call_client, hgt, he]

/-- Claim C5 witness (amended form) at a concrete non-ASCII input. -/
theorem c5_amended_witness :
    encodeFrame "Ωmega_API" "U" "P" "T" (thecommandOf ["Q"]) = none ∧
    call_client "zvmhost" 44444 "U" "P" "T" "Ωmega_API" ["Q"] ⟨true, true, none, none⟩ =
      ⟨PyRet.raised, true, false, false⟩ :=
  ⟨by decide,
    c5_amended_raise_before_send "zvmhost" 44444 "U" "P" "T" "Ωmega_API" ["Q"]
      true none none (by decide) (by decide)⟩

/-- Claim C7 counterexample: the early bare-integer return for more
than one trailing argument terminates call_client with the established
connection still open (closed = false), so not every exit path closes
the connection. -/
theorem c7_open_connection_exit :
    (call_client "zvmhost" 44444 "MAINT" "PW" "LINUX01" "Image_Create_DM"
        ["-T LIN1", "extra"] ⟨true, true, none, none⟩).closed = false ∧
    (call_client "zvmhost" 44444 "MAINT" "PW" "LINUX01" "Image_Create_DM"
        ["-T LIN1", "extra"] ⟨true, true, none, none⟩).connected = true ∧
    (call_client "zvmhost" 44444 "MAINT" "PW" "LINUX01" "Image_Create_DM"
        ["-T LIN1", "extra"] ⟨true, true, none, none⟩).result = PyRet.retInt 9999 := by
  exact ⟨by decide, by decide, by decide⟩

/-- Claim C7 as amended: every exit path that reaches the
send/receive phase (success, decode failure, transport error after
connect) closes the connection before returning; the early return for
more than one trailing argument and an uncaught encoding failure are
the exits that leave the established connection open. -/
theorem c7_amended_closed_after_send_phase (host : String) (port : Nat)
    (au ap tg api : String) (args : List String) (so : Bool)
    (r1 r2 : Option (List Nat)) (ha : args.length ≤ 1)
    (he : (encodeFrame api au ap tg (thecommandOf args)).isSome = true) :
    (call_client host port au ap tg api args ⟨true, so, r1, r2⟩).closed = true := by
  have hgt : ¬ 1 < args.length := by omega
  obtain ⟨bs, hbs⟩ := Option.isSome_iff_exists.mp he
  cases so <;> cases r1 <;> cases r2 <;> simp [call_client, hgt, hbs]

/-- Claim C7 witness (amended form): a concrete run through the
receive phase ends with the connection closed. -/
theorem c7_amended_witness :
    ((["Q"] : List String).length ≤ 1) ∧
    (call_client "zvmhost" 44444 "U" "P" "T" "API" ["Q"]
        ⟨true, true, some [0, 0, 0, 7], some []⟩).closed = true :=
  ⟨by decide,
    c7_amended_closed_after_send_phase "zvmhost" 44444 "U" "P" "T" "API" ["Q"]
      true (some [0, 0, 0, 7]) (some []) (by decide) (by decide)⟩

/-- Response buffer for the C3 counterexample: a well-formed 20-byte
header declaring one message line, then a line declaring length 10
while only the 3 bytes of abc remain. -/
def respC3 : List Nat :=
  [0, 0, 0, 27, 0, 0, 0, 1, 0, 0, 0, 0, 0, 0, 0, 0, 0, 0, 0, 1,
   0, 0, 0, 10, 97, 98, 99]

/-- Claim C3 counterexample: a declared message-line length (10)
exceeding the bytes actually available (3) does NOT make decoding
fail; call_client returns a normal triple whose message text is the
silently truncated line abc plus the appended newline. -/
theorem c3_overrun_silently_truncates :
    fromBytesBE (pySlice (respC3.drop 20) 0 4) = 10 ∧
    (respC3.drop 20).length = 7 ∧
    (call_client "zvmhost" 44444 "MAINT" "PW" "LINUX01" "Cp_SetShare" ["REL 100"]
        ⟨true, true, some [0, 0, 0, 1], some respC3⟩).result =
      PyRet.retTriple 0 0 ("abc" ++ "\n") := by
  refine ⟨by decide, by decide, by decide⟩

/-- Claim C3 as amended: decoding performs no length validation; when
a declared line length is nonzero and exceeds the bytes remaining, the
slice clamps to what is available, the truncated remainder is decoded
as the line, and the loop completes without any error. -/
theorem c3_amended_truncation_no_error (msgs : List Nat) (n : Nat)
    (hne : fromBytesBE (pySlice msgs 0 4) ≠ 0)
    (hover : msgs.length ≤ fromBytesBE (pySlice msgs 0 4) + 4)
    (hascii : (msgs.drop 4).all (fun b => b < 128) = true) :
    parseLines (n + 1) msgs "" =
      (String.mk ((msgs.drop 4).map Char.ofNat) ++ "\n", true) := by
  have hslice : pySlice msgs 4 (fromBytesBE (pySlice msgs 0 4) + 4) = msgs.drop 4 := by
    show (msgs.drop 4).take (fromBytesBE (pySlice msgs 0 4) + 4 - 4) = msgs.drop 4
    rw [Nat.add_sub_cancel]
    apply List.take_of_length_le
    rw [List.length_drop]
    omega
  have hdec : decodeASCII (pySlice msgs 4 (fromBytesBE (pySlice msgs 0 4) + 4)) =
      some (String.mk ((msgs.drop 4).map Char.ofNat)) := by
    rw [hslice]
    unfold decodeASCII
    rw [if_pos hascii]
  have hdrop : msgs.drop (fromBytesBE (pySlice msgs 0 4) + 4) = [] := by
    apply List.drop_eq_nil_of_le
    omega
  simp only [parseLines, hne, hdec, hdrop, parseLines_nil, if_neg, ite_false,
    String.empty_append]

/-- Claim C3 witness (amended form): a buffer declaring 10 bytes with
only abc available yields the truncated line and no failure. -/
theorem c3_amended_witness :
    fromBytesBE (pySlice [0, 0, 0, 10, 97, 98, 99] 0 4) ≠ 0 ∧
    parseLines 1 [0, 0, 0, 10, 97, 98, 99] "" =
      (String.mk (([97, 98, 99] : List Nat).map Char.ofNat) ++ "\n", true) :=
  ⟨by decide,
    c3_amended_truncation_no_error [0, 0, 0, 10, 97, 98, 99] 0
      (by decide) (by decide) (by decide)⟩

/-- Claim C10: on the successful receive path the message text of the
returned triple is the concatenation of the decoded message lines each
followed by exactly one newline; it is empty exactly when zero lines
were parsed, and otherwise it ends with a newline. -/
theorem c10_message_text_newlines (host : String) (port : Nat)
    (au ap tg api cmd : String) (r1 response : List Nat)
    (he : (encodeFrame api au ap tg cmd).isSome = true)
    (_hok : (parseLinesList (fromBytesBE (pySlice response 16 20)) (response.drop 20)).2 = true) :
    (call_client host port au ap tg api [cmd] ⟨true, true, some r1, some response⟩).result =
      PyRet.retTriple (fromBytesBE (pySlice response 8 12))
        (fromBytesBE (pySlice response 12 16))
        (concatNL (parseLinesList (fromBytesBE (pySlice response 16 20))
          (response.drop 20)).1) ∧
    (concatNL (parseLinesList (fromBytesBE (pySlice response 16 20))
        (response.drop 20)).1 = "" ↔
      (parseLinesList (fromBytesBE (pySlice response 16 20)) (response.drop 20)).1 = []) ∧
    ((parseLinesList (fromBytesBE (pySlice response 16 20)) (response.drop 20)).1 ≠ [] →
      ∃ t, concatNL (parseLinesList (fromBytesBE (pySlice response 16 20))
        (response.drop 20)).1 = t ++ "\n") := by
  have hcmd : thecommandOf [cmd] = cmd := rfl
  obtain ⟨bs, hbs⟩ := Option.isSome_iff_exists.mp he
  refine ⟨?_, concatNL_eq_empty_iff _, concatNL_ends_newline _⟩
  simp [call_client, hcmd, hbs, parseLines_eq, String.empty_append]

/-- Response buffer for the C10 witness: header with return code 8,
reason code 4, one message line hi! of declared length 3. -/
def respC10 : List Nat :=
  [0, 0, 0, 31, 0, 0, 0, 7, 0, 0, 0, 8, 0, 0, 0, 4, 0, 0, 0, 1,
   0, 0, 0, 3, 104, 105, 33]

/-- Claim C10 witness at a concrete one-line response. -/
theorem c10_message_text_witness :
    (call_client "zvmhost" 44444 "U" "P" "T" "API" ["Q"]
        ⟨true, true, some [0, 0, 0, 7], some respC10⟩).result =
      PyRet.retTriple (fromBytesBE (pySlice respC10 8 12))
        (fromBytesBE (pySlice respC10 12 16))
        (concatNL (parseLinesList (fromBytesBE (pySlice respC10 16 20))
          (respC10.drop 20)).1) :=
  (c10_message_text_newlines "zvmhost" 44444 "U" "P" "T" "API" "Q" [0, 0, 0, 7] respC10
    (by decide) (by decide)).1

/-- Stdout of the idempotent-rerun scenario from the comment block in
zvm_user.py lines 193-201: the smcli output whose Description line
contains the benign error text. -/
def scenarioB_stdout : String :=
  "Defining thingone in the directory... \nFailed\n  Return Code: 400\n  Reason Code: 8\n  Description: ULGSMC5400E Image or profile name already defined\n  API issued : Image_Create_DM"

set_option maxRecDepth 200000 in
/-- Claim C2: the benign phrase is a substring of the message text,
and zvm_setshare-style classification of (400, that text) is
AlreadySatisfied as the claim says; but the zvm_user classification
tail iterates the CHARACTERS of the stdout string run_command returns,
testing each single character for the multi-character benign
substrings, so it never matches and classifies the same input as
Failed.  This contradicts the modules own comments and RETURN
documentation, which describe scanning the stdout lines. -/
theorem c2_user_char_scan_fails_benign :
    isSubstring "Image or profile name already defined" scenarioB_stdout = true ∧
    classify_setshare 400 scenarioB_stdout zvm_user_benign = Outcome.AlreadySatisfied ∧
    classify_user 400 scenarioB_stdout zvm_user_benign =
      Outcome.Failed ("failing return code from smcli is: " ++ toString (400 : Int))
        400 scenarioB_stdout := by
  refine ⟨by decide, by decide, by decide⟩

/-- Claim C8: a return code outside zero and the positive range (for
example a negative sentinel) classifies, in both module tails, as the
distinct UnknownReturnCode failure with its own diagnostic message,
and never as the generic Failed case. -/
theorem c8_unknown_return_code (rc : Int) (stdout : String) (benign : List String)
    (h : rc < 0) :
    classify_setshare rc stdout benign =
      Outcome.UnknownReturnCode ("unknown return code from smcli: " ++ toString rc) ∧
    classify_user rc stdout benign =
      Outcome.UnknownReturnCode ("unknown return code from smcli: " ++ toString rc) ∧
    (∀ m r s, classify_setshare rc stdout benign ≠ Outcome.Failed m r s) ∧
    (∀ m r s, classify_user rc stdout benign ≠ Outcome.Failed m r s) := by
  have h0 : ¬ rc = 0 := by omega
  have h1 : ¬ (1 : Int) ≤ rc := by omega
  refine ⟨?_, ?_, ?_, ?_⟩ <;> simp [classify_setshare, classify_user, h0, h1]

/-- Claim C8 witness at the initial sentinel value -9 used by the
result dictionaries of both modules. -/
theorem c8_unknown_return_code_witness :
    ((-9 : Int) < 0) ∧
    classify_setshare (-9) "some output" [] =
      Outcome.UnknownReturnCode ("unknown return code from smcli: " ++ toString (-9 : Int)) :=
  ⟨by decide, (c8_unknown_return_code (-9) "some output" [] (by decide)).1⟩
